import Mathlib

/-!
Verification development for the GratitudeMRT visit-photolog application.

The application keeps a `VisitMap` (a JavaScript object keyed by station
code) of `VisitLog` records, persisted to localStorage as JSON.  An edit
session holds a transient draft (`tempVisit : Option VisitLog`); attaching
an image starts a local preview, a cloud upload, and (after a successful
upload, when an API key is configured) an AI caption generation whose
result is written back into whatever draft is current when it arrives.

The embedding below models the JavaScript object as an association list
with JS update semantics (`{...m, [k]: v}` replaces the existing key in
place or appends; `delete m[k]` removes the key), and the asynchronous
pipeline of `handleImageUpload` / `generateCaption` as explicit state
transitions parameterised by the outcome of each external call.
-/

namespace MRTPhotolog

/-- A station of the catalog (`types.ts`): code and display name. -/
structure Station where
  code : String
  name : String
deriving DecidableEq

/-- A catalog line (`types.ts`): id, name, CSS color class, stations. -/
structure MRTLine where
  id : String
  name : String
  colorClass : String
  stations : List Station
deriving DecidableEq

/-- A visit record (`types.ts` VisitLog): the four optional fields are
absent (`none`) when the corresponding object property is missing. -/
structure VisitLog where
  stationCode : String
  visitedDate : String
  imageData : Option String := none
  caption : Option String := none
  highlights : Option String := none
  goodFood : Option String := none
deriving DecidableEq

/-- The visit store (`types.ts` VisitMap = Record of String to VisitLog),
modelled as an association list with unique keys, in insertion order. -/
abbrev VisitMap := List (String × VisitLog)

/-- JS property lookup `m[c]` (returns `undefined`, here `none`, when the
key is absent). -/
def lookupVisit : VisitMap → String → Option VisitLog
  | [], _ => none
  | (k, v) :: rest, c => if k = c then some v else lookupVisit rest c

/-- JS object spread update `{ ...m, [c]: v }`: replaces the value of an
existing key in place, otherwise appends the new key at the end. -/
def setKey : VisitMap → String → VisitLog → VisitMap
  | [], c, v => [(c, v)]
  | (k, w) :: rest, c, v =>
      if k = c then (k, v) :: rest else (k, w) :: setKey rest c v

/-- JS `delete m[c]`: removes the key if present, no-op otherwise. -/
def deleteKey : VisitMap → String → VisitMap
  | [], _ => []
  | (k, v) :: rest, c =>
      if k = c then deleteKey rest c else (k, v) :: deleteKey rest c

/-- `saveEntry` from the source: with no draft open it returns without
mutating; otherwise it writes the draft under the draft's own
`stationCode` (`{ ...visitMap, [tempVisit.stationCode]: tempVisit }`). -/
def saveEntry (visitMap : VisitMap) (tempVisit : Option VisitLog) : VisitMap :=
  match tempVisit with
  | none => visitMap
  | some t => setKey visitMap t.stationCode t

/-- `deleteEntry` from the source: with no station selected it returns
without mutating; otherwise it deletes the selected station's key. -/
def deleteEntry (visitMap : VisitMap) (selectedCode : Option String) : VisitMap :=
  match selectedCode with
  | none => visitMap
  | some c => deleteKey visitMap c

/-- `handleStationClick` from the source, restricted to the draft it
creates: a copy of the existing record for the clicked station, or a
fresh record with `stationCode` set from the station and `visitedDate`
set to today. -/
def handleStationClick (visitMap : VisitMap) (station : Station)
    (today : String) : Option VisitLog :=
  match lookupVisit visitMap station.code with
  | some existing => some existing
  | none => some { stationCode := station.code, visitedDate := today }

/-- `totalStations` from the source:
`MRT_LINES.reduce((sum, line) => sum + line.stations.length, 0)`. -/
def totalStations (lines : List MRTLine) : Nat :=
  lines.foldl (fun sum line => sum + line.stations.length) 0

/-- `totalVisited` from the source: `Object.keys(visitMap).length`, the
number of keys of the store, with no reference to the catalog. -/
def totalVisited (visitMap : VisitMap) : Nat :=
  visitMap.length

/-- All station codes appearing in the catalog, across all lines. -/
def catalogCodes (lines : List MRTLine) : List String :=
  (lines.map (fun l => l.stations.map (fun s => s.code))).flatten

/-- Modelled from the spec's words, for comparison with `totalVisited`
(refinement target of the progress claim): "visited count is the number
of Store keys that match a station in the Catalog". -/
def specVisitedCount (visitMap : VisitMap) (lines : List MRTLine) : Nat :=
  (visitMap.filter (fun p => (catalogCodes lines).contains p.1)).length

/-- One JSON field of a serialized record: property name and string value.
`JSON.stringify` omits properties that are absent. -/
def optField (fieldName : String) : Option String → List (String × String)
  | none => []
  | some s => [(fieldName, s)]

/-- The JSON object produced by `JSON.stringify` for one `VisitLog`:
present properties in declaration order, absent optional ones omitted. -/
def encodeVisitLog (v : VisitLog) : List (String × String) :=
  [("stationCode", v.stationCode), ("visitedDate", v.visitedDate)]
    ++ optField "imageData" v.imageData
    ++ optField "caption" v.caption
    ++ optField "highlights" v.highlights
    ++ optField "goodFood" v.goodFood

/-- JSON object property lookup on a serialized record. -/
def getField : List (String × String) → String → Option String
  | [], _ => none
  | (k, s) :: rest, n => if k = n then some s else getField rest n

/-- Reading one `VisitLog` back from its JSON object
(the `JSON.parse` side of the round trip). -/
def decodeVisitLog (fields : List (String × String)) : Option VisitLog :=
  match getField fields "stationCode", getField fields "visitedDate" with
  | some sc, some vd =>
      some { stationCode := sc, visitedDate := vd,
             imageData := getField fields "imageData",
             caption := getField fields "caption",
             highlights := getField fields "highlights",
             goodFood := getField fields "goodFood" }
  | _, _ => none

/-- `JSON.stringify(visitMap)`: a flat JSON object keyed by station code,
each value the serialized record. -/
def serializeStore (visitMap : VisitMap) : List (String × List (String × String)) :=
  visitMap.map (fun p => (p.1, encodeVisitLog p.2))

/-- `JSON.parse` of a serialized store: decodes every entry, failing if
any record is malformed. -/
def loadStore : List (String × List (String × String)) → Option VisitMap
  | [] => some []
  | (k, fields) :: rest =>
      match decodeVisitLog fields, loadStore rest with
      | some v, some m => some ((k, v) :: m)
      | _, _ => none

/-- The durable blob under the localStorage key, as the load effect sees
it: absent, well-formed (parses to a store), or corrupt (parse throws). -/
inductive PersistedBlob where
  | wellFormed (m : VisitMap)
  | corrupt
deriving DecidableEq

/-- `JSON.parse` applied to the raw blob: a well-formed blob yields its
store, a corrupt one throws (modelled as `Except.error`). -/
def parseBlob : PersistedBlob → Except String VisitMap
  | .wellFormed m => .ok m
  | .corrupt => .error "parse error"

/-- The load effect from the source: `visitMap` starts as the empty
object; if `localStorage.getItem` returns data, it is parsed inside
`try`, and on success replaces the map; a parse exception is caught and
only logged, leaving the empty map in place.  Total: never throws. -/
def loadVisitMap (stored : Option PersistedBlob) : VisitMap :=
  match stored with
  | none => []
  | some blob =>
      match parseBlob blob with
      | .ok m => m
      | .error _ => []

/-- Outcome of the Cloudinary upload call (`uploadImage`): the secure
URL on success, or a thrown error. -/
inductive UploadOutcome where
  | success (url : String)
  | failure
deriving DecidableEq

/-- The edit-session state touched by the image pipeline: the draft
(`tempVisit`), the two loading flags, and — for observing which file the
caption generator was invoked on — the argument of the `generateCaption`
call, `none` while no call has been made. -/
structure PipelineState where
  tempVisit : Option VisitLog
  isUploading : Bool
  isGeneratingCaption : Bool
  captionCalledWith : Option String
deriving DecidableEq

/-- JS `String.prototype.trim()` as applied to the generation response
(`response.text.trim()`): strips leading and trailing whitespace.
Written over the character list so that it is kernel-executable. -/
def trimChars (s : String) : String :=
  ⟨((s.data.dropWhile Char.isWhitespace).reverse.dropWhile Char.isWhitespace).reverse⟩

/-- The synchronous part of `generateCaption(file)`: bail out silently
when no API key is configured; otherwise set the loading flag and issue
the generation request on the given file. -/
def generateCaptionStart (apiKey : Option String) (st : PipelineState)
    (file : String) : PipelineState :=
  match apiKey with
  | none => st
  | some _ => { st with isGeneratingCaption := true, captionCalledWith := some file }

/-- Arrival of the caption-generation result: on success the handler runs
`setTempVisit(prev => prev ? { ...prev, caption: response.text.trim() } : null)`
— it overwrites the caption of whatever draft is current, with no check
of session identity or of intervening user edits; on error the draft is
untouched.  Either way the loading flag is cleared. -/
def generateCaptionFinish (st : PipelineState) (result : Option String) :
    PipelineState :=
  match result with
  | some txt =>
      { st with
        tempVisit := st.tempVisit.map (fun p => { p with caption := some (trimChars txt) }),
        isGeneratingCaption := false }
  | none => { st with isGeneratingCaption := false }

/-- The synchronous prefix of `handleImageUpload`: with no draft open the
handler returns at once; otherwise the `FileReader` preview puts the
local base64 representation into the draft's `imageData` and the upload
begins (`setIsUploading(true)`). -/
def handleImageUploadStart (st : PipelineState) (localData : String) :
    PipelineState :=
  match st.tempVisit with
  | none => st
  | some _ =>
      { st with
        tempVisit := st.tempVisit.map (fun p => { p with imageData := some localData }),
        isUploading := true }

/-- Settlement of `await uploadImage(file)`: on success the draft's
`imageData` is replaced with the cloud URL and `generateCaption(file)` is
invoked on the originally selected file; on failure the catch block
alerts and the draft keeps the local preview, with `generateCaption`
never invoked.  The `finally` block clears `isUploading` in both cases. -/
def handleImageUploadFinish (apiKey : Option String) (st : PipelineState)
    (file : String) (outcome : UploadOutcome) : PipelineState :=
  match outcome with
  | .success url =>
      let st1 :=
        { st with
          tempVisit := st.tempVisit.map (fun p => { p with imageData := some url }) }
      let st2 := generateCaptionStart apiKey st1 file
      { st2 with isUploading := false }
  | .failure => { st with isUploading := false }

/-- The caption textarea's `onChange` handler:
`setTempVisit(prev => prev ? { ...prev, caption: e.target.value } : null)`. -/
def userTypeCaption (st : PipelineState) (text : String) : PipelineState :=
  { st with tempVisit := st.tempVisit.map (fun p => { p with caption := some text }) }

/-- The Save Journey button's availability in the source:
`disabled={isUploading}`. -/
def saveButtonDisabled (st : PipelineState) : Bool :=
  st.isUploading

/-- One store mutation of the app: a save of a draft record or a delete
of a station code. -/
inductive StoreOp where
  | save (r : VisitLog)
  | del (c : String)
deriving DecidableEq

/-- Apply one store mutation. -/
def applyOp (m : VisitMap) : StoreOp → VisitMap
  | .save r => saveEntry m (some r)
  | .del c => deleteEntry m (some c)

/-- Apply a sequence of store mutations in order. -/
def applyOps (ops : List StoreOp) (m : VisitMap) : VisitMap :=
  ops.foldl applyOp m

/-- A store is well-keyed when every stored record sits under its own
`stationCode`. -/
def WellKeyed (m : VisitMap) : Prop :=
  ∀ k v, lookupVisit m k = some v → v.stationCode = k

theorem lookupVisit_setKey (m : VisitMap) (c : String) (v : VisitLog) (k : String) :
    lookupVisit (setKey m c v) k = if k = c then some v else lookupVisit m k := by
  induction m with
  | nil => simp [setKey, lookupVisit, eq_comm]
  | cons hd tl ih =>
      obtain ⟨hk, hv⟩ := hd
      by_cases h1 : hk = c
      · subst h1
        by_cases h2 : hk = k
        · subst h2; simp [setKey, lookupVisit]
        · simp [setKey, lookupVisit, h2, Ne.symm h2]
      · by_cases h2 : hk = k
        · subst h2
          simp [setKey, lookupVisit, h1]
        · simp [setKey, lookupVisit, h1, h2, ih]

theorem lookupVisit_deleteKey (m : VisitMap) (c : String) (k : String) :
    lookupVisit (deleteKey m c) k = if k = c then none else lookupVisit m k := by
  induction m with
  | nil => simp [deleteKey, lookupVisit]
  | cons hd tl ih =>
      obtain ⟨hk, hv⟩ := hd
      by_cases h1 : hk = c
      · subst h1
        by_cases h2 : hk = k
        · subst h2; simp [deleteKey, lookupVisit, ih]
        · simp [deleteKey, lookupVisit, h2, ih]
      · by_cases h2 : hk = k
        · subst h2
          simp [deleteKey, lookupVisit, h1, ih]
        · simp [deleteKey, lookupVisit, h1, h2, ih]

theorem decodeVisitLog_encodeVisitLog (v : VisitLog) :
    decodeVisitLog (encodeVisitLog v) = some v := by
  obtain ⟨sc, vd, img, cap, hi, gf⟩ := v
  cases img <;> cases cap <;> cases hi <;> cases gf <;> rfl

theorem loadStore_serializeStore (m : VisitMap) :
    loadStore (serializeStore m) = some m := by
  induction m with
  | nil => rfl
  | cons hd tl ih =>
      obtain ⟨k, v⟩ := hd
      show loadStore ((k, encodeVisitLog v) :: serializeStore tl) = some ((k, v) :: tl)
      simp only [loadStore, decodeVisitLog_encodeVisitLog, ih]

theorem totalStations_eq_length_catalogCodes (lines : List MRTLine) :
    totalStations lines = (catalogCodes lines).length := by
  have h : ∀ (ls : List MRTLine) (n : Nat),
      ls.foldl (fun sum line => sum + line.stations.length) n
        = n + (catalogCodes ls).length := by
    intro ls
    induction ls with
    | nil => intro n; simp [catalogCodes]
    | cons hd tl ih =>
        intro n
        rw [List.foldl_cons, ih]
        simp [catalogCodes]
        omega
  simpa [totalStations] using h lines 0

theorem wellKeyed_applyOp (m : VisitMap) (op : StoreOp) (h : WellKeyed m) :
    WellKeyed (applyOp m op) := by
  cases op with
  | save r =>
      intro k v hv
      simp only [applyOp, saveEntry, lookupVisit_setKey] at hv
      by_cases hk : k = r.stationCode
      · simp [hk] at hv
        subst hv
        exact hk.symm
      · simp [hk] at hv
        exact h k v hv
  | del c =>
      intro k v hv
      simp only [applyOp, deleteEntry, lookupVisit_deleteKey] at hv
      by_cases hk : k = c
      · simp [hk] at hv
      · simp [hk] at hv
        exact h k v hv

theorem wellKeyed_applyOps (ops : List StoreOp) (m : VisitMap) (h : WellKeyed m) :
    WellKeyed (applyOps ops m) := by
  induction ops generalizing m with
  | nil => exact h
  | cons op rest ih =>
      simp only [applyOps, List.foldl_cons]
      exact ih (applyOp m op) (wellKeyed_applyOp m op h)

/-- Claim C1: for every visit record `r` and store `m`, committing `r`
via `saveEntry` yields a store in which looking up `r.stationCode`
returns a record equal to `r`, and serializing that store then reloading
it (the localStorage round trip) reproduces the same store. -/
theorem saveEntry_lookup_and_roundtrip (m : VisitMap) (r : VisitLog) :
    lookupVisit (saveEntry m (some r)) r.stationCode = some r ∧
    loadStore (serializeStore (saveEntry m (some r))) = some (saveEntry m (some r)) := by
  constructor
  · simp [saveEntry, lookupVisit_setKey]
  · exact loadStore_serializeStore (saveEntry m (some r))

/-- Claim C7: for every store `m` and station code `c`, `deleteEntry`
yields a store in which lookup of `c` is absent, whether or not `c` was
present beforehand; removal of an absent key is a no-op, not an error. -/
theorem deleteEntry_lookup_none (m : VisitMap) (c : String) :
    lookupVisit (deleteEntry m (some c)) c = none := by
  simp [deleteEntry, lookupVisit_deleteKey]

/-- Claim C8: the load effect returns a store for every persisted blob:
when the blob is absent it returns the empty store, and when parsing
throws the exception is caught and the empty store results; being a total
function, it never propagates an error to the caller. -/
theorem loadVisitMap_empty_on_absent_or_corrupt :
    loadVisitMap none = [] ∧
    ∀ b e, parseBlob b = Except.error e → loadVisitMap (some b) = [] := by
  refine ⟨rfl, ?_⟩
  intro b e h
  cases b with
  | wellFormed m => simp [parseBlob] at h
  | corrupt => rfl

/-- Witness for `loadVisitMap_empty_on_absent_or_corrupt` at the corrupt
blob. -/
theorem loadVisitMap_empty_on_absent_or_corrupt_witness :
    parseBlob PersistedBlob.corrupt = Except.error "parse error" ∧
    loadVisitMap (some PersistedBlob.corrupt) = [] :=
  ⟨rfl, loadVisitMap_empty_on_absent_or_corrupt.2 PersistedBlob.corrupt "parse error" rfl⟩

/-- Claim C9: with no captioning capability configured (`apiKey = none`),
attaching an image — local preview, upload, and its settlement with any
outcome — never populates the draft's caption automatically, never
invokes the caption generator, and (being a total function) never raises:
the caption step is silently skipped. -/
theorem no_api_key_silently_skips_caption (st : PipelineState)
    (localData file : String) (outcome : UploadOutcome) :
    ((handleImageUploadFinish none (handleImageUploadStart st localData) file
        outcome).tempVisit).map VisitLog.caption = (st.tempVisit).map VisitLog.caption ∧
    (handleImageUploadFinish none (handleImageUploadStart st localData) file
        outcome).captionCalledWith = st.captionCalledWith ∧
    (handleImageUploadFinish none (handleImageUploadStart st localData) file
        outcome).isGeneratingCaption = st.isGeneratingCaption := by
  obtain ⟨tv, u, g, cw⟩ := st
  cases tv <;> cases outcome <;>
    simp [handleImageUploadStart, handleImageUploadFinish, generateCaptionStart]

/-- Claim C10: starting from the empty visit map, after any sequence of
save and delete operations, every key `k` present in the map holds a
record whose `stationCode` equals `k`: a commit always stores the draft
under the draft's own station code. -/
theorem saveDelete_key_invariant (ops : List StoreOp) (k : String) (v : VisitLog)
    (h : lookupVisit (applyOps ops []) k = some v) : v.stationCode = k := by
  have hwf : WellKeyed (applyOps ops []) :=
    wellKeyed_applyOps ops [] (by intro a b hb; simp [lookupVisit] at hb)
  exact hwf k v h

/-- Witness for `saveDelete_key_invariant`: one save of a record keyed
"NS1". -/
theorem saveDelete_key_invariant_witness :
    lookupVisit (applyOps [StoreOp.save ⟨"NS1", "2024-01-01", none, none, none, none⟩] []) "NS1"
      = some ⟨"NS1", "2024-01-01", none, none, none, none⟩ ∧
    (⟨"NS1", "2024-01-01", none, none, none, none⟩ : VisitLog).stationCode = "NS1" :=
  ⟨by decide,
   saveDelete_key_invariant [StoreOp.save ⟨"NS1", "2024-01-01", none, none, none, none⟩]
     "NS1" ⟨"NS1", "2024-01-01", none, none, none, none⟩ (by decide)⟩

/-- Counterexample to claim C2: the user opens a draft for "EW18",
caption generation is requested, the user then types "my own words", and
when the generated result later arrives it overwrites the typed caption —
the code's `setTempVisit(prev => prev ? { ...prev, caption: ... } : null)`
checks nothing about intervening user edits. -/
theorem captionResult_overwrites_typed_caption_cex :
    (generateCaptionFinish
        (userTypeCaption
          (generateCaptionStart (some "key")
            { tempVisit := some ⟨"EW18", "2024-01-01", none, none, none, none⟩,
              isUploading := false, isGeneratingCaption := false,
              captionCalledWith := none } "photo.jpg")
          "my own words")
        (some "generated caption")).tempVisit
      = some ⟨"EW18", "2024-01-01", none, some "generated caption", none, none⟩ ∧
    (some "generated caption" : Option String) ≠ some "my own words" := by
  decide

/-- Claim C2 as amended: the generated result, on arrival, overwrites the
draft's caption unconditionally whenever any draft is open — including a
caption the user typed after the request started; a typed caption
survives only if no draft is open when the result arrives. -/
theorem captionResult_unconditional_overwrite (d : VisitLog) (u g : Bool)
    (cw : Option String) (typed gen : String) :
    (generateCaptionFinish
        (userTypeCaption
          { tempVisit := some d, isUploading := u, isGeneratingCaption := g,
            captionCalledWith := cw } typed)
        (some gen)).tempVisit
      = some { d with caption := some (trimChars gen) } := by
  simp [userTypeCaption, generateCaptionFinish]

/-- Counterexample to claim C3: a caption result issued for an "EW18"
session arrives after the user has switched to editing "NS2"; the result
is written into the fresh "NS2" draft, changing its caption from absent
to the stale text. -/
theorem staleCaption_applied_to_switched_draft_cex :
    handleStationClick [] ⟨"NS2", "Bukit Batok"⟩ "2024-01-02"
      = some ⟨"NS2", "2024-01-02", none, none, none, none⟩ ∧
    (generateCaptionFinish
        { tempVisit := handleStationClick [] ⟨"NS2", "Bukit Batok"⟩ "2024-01-02",
          isUploading := false, isGeneratingCaption := true,
          captionCalledWith := some "ew18-photo.jpg" }
        (some "stale caption for EW18")).tempVisit
      = some ⟨"NS2", "2024-01-02", none, some "stale caption for EW18", none, none⟩ := by
  decide

/-- Claim C3 as amended: an asynchronous result is dropped only when no
draft is open at all (`tempVisit` is `null`); whenever any draft is open
the result is applied to it, with no check that it is the draft the
request was issued for — a caption result overwrites the current draft's
caption, and an upload result overwrites the current draft's image
reference. -/
theorem asyncResult_applied_iff_draft_open (d : VisitLog) (u g : Bool)
    (cw apiKey : Option String) (txt file url : String) :
    (generateCaptionFinish
        { tempVisit := some d, isUploading := u, isGeneratingCaption := g,
          captionCalledWith := cw } (some txt)).tempVisit
      = some { d with caption := some (trimChars txt) } ∧
    (generateCaptionFinish
        { tempVisit := none, isUploading := u, isGeneratingCaption := g,
          captionCalledWith := cw } (some txt)).tempVisit = none ∧
    (handleImageUploadFinish apiKey
        { tempVisit := some d, isUploading := u, isGeneratingCaption := g,
          captionCalledWith := cw } file (.success url)).tempVisit
      = some { d with imageData := some url } := by
  refine ⟨by simp [generateCaptionFinish], by simp [generateCaptionFinish], ?_⟩
  cases apiKey <;> simp [handleImageUploadFinish, generateCaptionStart]

/-- Counterexample to claim C4: immediately after image selection the
draft's image reference holds the local representation and the upload is
in flight, yet the Save Journey button is disabled
(`disabled={isUploading}`) — saving is not available for this draft. -/
theorem save_disabled_while_uploading_cex :
    (handleImageUploadStart
        { tempVisit := some ⟨"EW18", "2024-01-01", none, none, none, none⟩,
          isUploading := false, isGeneratingCaption := false,
          captionCalledWith := none } "local-base64").tempVisit
      = some ⟨"EW18", "2024-01-01", some "local-base64", none, none, none⟩ ∧
    saveButtonDisabled
      (handleImageUploadStart
        { tempVisit := some ⟨"EW18", "2024-01-01", none, none, none, none⟩,
          isUploading := false, isGeneratingCaption := false,
          captionCalledWith := none } "local-base64") = true := by
  decide

/-- Claim C4 as amended: saving is blocked while the upload is strictly
in flight (the Save button is disabled); once the upload settles — in
particular on failure, when the draft keeps the local representation —
saving is enabled again and commits a record containing that local
representation. -/
theorem save_enabled_after_upload_settles (d : VisitLog) (g : Bool)
    (cw apiKey : Option String) (localData file : String) (m : VisitMap) :
    saveButtonDisabled
      (handleImageUploadStart
        { tempVisit := some d, isUploading := false, isGeneratingCaption := g,
          captionCalledWith := cw } localData) = true ∧
    saveButtonDisabled
      (handleImageUploadFinish apiKey
        (handleImageUploadStart
          { tempVisit := some d, isUploading := false, isGeneratingCaption := g,
            captionCalledWith := cw } localData) file .failure) = false ∧
    (handleImageUploadFinish apiKey
        (handleImageUploadStart
          { tempVisit := some d, isUploading := false, isGeneratingCaption := g,
            captionCalledWith := cw } localData) file .failure).tempVisit
      = some { d with imageData := some localData } ∧
    lookupVisit
      (saveEntry m
        (handleImageUploadFinish apiKey
          (handleImageUploadStart
            { tempVisit := some d, isUploading := false, isGeneratingCaption := g,
              captionCalledWith := cw } localData) file .failure).tempVisit)
      d.stationCode
      = some { d with imageData := some localData } := by
  refine ⟨rfl, rfl, by simp [handleImageUploadStart, handleImageUploadFinish], ?_⟩
  simp [handleImageUploadStart, handleImageUploadFinish, saveEntry, lookupVisit_setKey]

/-- Counterexample to claim C5: with a captioning capability configured
("key"), caption generation has not been launched while the upload is
still pending, and is never launched when the upload fails — it is not
independent of upload completion and outcome. -/
theorem caption_not_launched_on_failure_cex :
    (handleImageUploadStart
        { tempVisit := some ⟨"EW18", "2024-01-01", none, none, none, none⟩,
          isUploading := false, isGeneratingCaption := false,
          captionCalledWith := none } "local-base64").captionCalledWith = none ∧
    (handleImageUploadFinish (some "key")
        (handleImageUploadStart
          { tempVisit := some ⟨"EW18", "2024-01-01", none, none, none, none⟩,
            isUploading := false, isGeneratingCaption := false,
            captionCalledWith := none } "local-base64")
        "photo.jpg" .failure).captionCalledWith = none ∧
    (handleImageUploadFinish (some "key")
        (handleImageUploadStart
          { tempVisit := some ⟨"EW18", "2024-01-01", none, none, none, none⟩,
            isUploading := false, isGeneratingCaption := false,
            captionCalledWith := none } "local-base64")
        "photo.jpg" .failure).isGeneratingCaption = false := by
  decide

/-- Claim C5 as amended: caption generation is launched only after the
upload completes successfully — not while it is pending and not when it
fails; when launched it does consume the originally selected file (not
the uploaded result). -/
theorem caption_launched_only_after_success (d : VisitLog) (g : Bool)
    (localData file url k : String) :
    (handleImageUploadStart
        { tempVisit := some d, isUploading := false, isGeneratingCaption := g,
          captionCalledWith := none } localData).captionCalledWith = none ∧
    (handleImageUploadFinish (some k)
        (handleImageUploadStart
          { tempVisit := some d, isUploading := false, isGeneratingCaption := g,
            captionCalledWith := none } localData) file .failure).captionCalledWith
      = none ∧
    (handleImageUploadFinish (some k)
        (handleImageUploadStart
          { tempVisit := some d, isUploading := false, isGeneratingCaption := g,
            captionCalledWith := none } localData) file (.success url)).captionCalledWith
      = some file ∧
    (handleImageUploadFinish (some k)
        (handleImageUploadStart
          { tempVisit := some d, isUploading := false, isGeneratingCaption := g,
            captionCalledWith := none } localData) file (.success url)).isGeneratingCaption
      = true := by
  refine ⟨rfl, rfl, ?_, ?_⟩ <;>
    simp [handleImageUploadStart, handleImageUploadFinish, generateCaptionStart]

/-- Counterexample to claim C6: a store holding two records keyed outside
the catalog ("BP1", "BP2") against a catalog with a single one-station
line — the code's visited count (`Object.keys(visitMap).length`) is 2,
the number of store keys matching the catalog is 0, and the visited count
exceeds the total count of 1. -/
theorem totalVisited_ne_specVisitedCount_cex :
    totalVisited
        [("BP1", ⟨"BP1", "2024-01-01", none, none, none, none⟩),
         ("BP2", ⟨"BP2", "2024-01-02", none, none, none, none⟩)]
      ≠ specVisitedCount
        [("BP1", ⟨"BP1", "2024-01-01", none, none, none, none⟩),
         ("BP2", ⟨"BP2", "2024-01-02", none, none, none, none⟩)]
        [⟨"NSL", "North South Line", "bg-red-600", [⟨"NS1", "Jurong East"⟩]⟩] ∧
    totalVisited
        [("BP1", ⟨"BP1", "2024-01-01", none, none, none, none⟩),
         ("BP2", ⟨"BP2", "2024-01-02", none, none, none, none⟩)]
      > totalStations [⟨"NSL", "North South Line", "bg-red-600", [⟨"NS1", "Jurong East"⟩]⟩] := by
  decide

/-- Claim C6 as amended: the code's visited count is the number of keys
in the store, with no reference to the catalog; when every store key
matches a station in the catalog it does equal the count of matching
keys, and — the keys being distinct — it then cannot exceed the total
count of stations across all catalog lines. -/
theorem totalVisited_spec_agreement_of_catalog_keys (m : VisitMap)
    (cat : List MRTLine)
    (hsub : ∀ p ∈ m, (catalogCodes cat).contains p.1 = true)
    (hnodup : (m.map Prod.fst).Nodup) :
    totalVisited m = specVisitedCount m cat ∧
    totalVisited m ≤ totalStations cat := by
  constructor
  · unfold totalVisited specVisitedCount
    rw [List.filter_eq_self.mpr hsub]
  · have hsubset : (m.map Prod.fst) ⊆ catalogCodes cat := by
      intro a ha
      obtain ⟨p, hp, rfl⟩ := List.mem_map.mp ha
      simpa using hsub p hp
    have hle := (List.subperm_of_subset hnodup hsubset).length_le
    rw [totalStations_eq_length_catalogCodes]
    simpa [totalVisited] using hle

/-- Witness for `totalVisited_spec_agreement_of_catalog_keys`: a
one-record store keyed "NS1" against a catalog containing "NS1". -/
theorem totalVisited_spec_agreement_witness :
    (∀ p ∈ ([("NS1", ⟨"NS1", "2024-01-01", none, none, none, none⟩)] : VisitMap),
        (catalogCodes
          [⟨"NSL", "North South Line", "bg-red-600",
            [⟨"NS1", "Jurong East"⟩, ⟨"NS2", "Bukit Batok"⟩]⟩]).contains p.1 = true) ∧
    (([("NS1", ⟨"NS1", "2024-01-01", none, none, none, none⟩)] : VisitMap).map
        Prod.fst).Nodup ∧
    (totalVisited [("NS1", ⟨"NS1", "2024-01-01", none, none, none, none⟩)]
        = specVisitedCount [("NS1", ⟨"NS1", "2024-01-01", none, none, none, none⟩)]
            [⟨"NSL", "North South Line", "bg-red-600",
              [⟨"NS1", "Jurong East"⟩, ⟨"NS2", "Bukit Batok"⟩]⟩] ∧
     totalVisited [("NS1", ⟨"NS1", "2024-01-01", none, none, none, none⟩)]
        ≤ totalStations
            [⟨"NSL", "North South Line", "bg-red-600",
              [⟨"NS1", "Jurong East"⟩, ⟨"NS2", "Bukit Batok"⟩]⟩]) :=
  ⟨by decide, by decide,
   totalVisited_spec_agreement_of_catalog_keys
     [("NS1", ⟨"NS1", "2024-01-01", none, none, none, none⟩)]
     [⟨"NSL", "North South Line", "bg-red-600",
       [⟨"NS1", "Jurong East"⟩, ⟨"NS2", "Bukit Batok"⟩]⟩]
     (by decide) (by decide)⟩

end MRTPhotolog
